import Mathlib

/-!
Verification of the Barcelona Archives system against its specification.

The repository ships the Vue.js frontend sources (Home.vue, Settings.vue,
the source-document view, db.js) and README documentation; the FastAPI
backend that implements the RAG pipeline (agent.py, rag_retriever.py,
routes/chat.py) is not present in the source tree.  Frontend behaviour is
therefore embedded directly from the Vue code, while the pipeline
components (retriever, context assembler, orchestrator, configuration
store) are modelled from the specification, as marked in each doc comment.
-/

namespace BarcelonaArchives

/-! ## JavaScript string primitives used by the frontend code -/

/-- Character class of JavaScript string whitespace, as consumed by
`String.prototype.trim`: space, tab, newline, carriage return, form feed,
vertical tab and no-break space. -/
def jsWhitespace (c : Char) : Bool :=
  c == ' ' || c == '\t' || c == '\n' || c == '\r' ||
  c == Char.ofNat 12 || c == Char.ofNat 11 || c == Char.ofNat 160

/-- JavaScript `s.trim()`: strips leading and trailing whitespace. -/
def jsTrim (s : String) : String :=
  String.mk (((s.data.dropWhile jsWhitespace).reverse.dropWhile jsWhitespace).reverse)

/-- Helper for `hasSubstr`: does `pat` occur inside the character list? -/
def hasSubstrList (pat : List Char) : List Char → Bool
  | [] => pat.isEmpty
  | c :: rest => pat.isPrefixOf (c :: rest) || hasSubstrList pat rest

/-- JavaScript `s.includes(pat)`: substring containment test. -/
def hasSubstr (s pat : String) : Bool :=
  hasSubstrList pat.data s.data

/-- Helper for `jsIndexOf`: index of the first occurrence of `pat`. -/
def jsIndexOfAux (pat : List Char) : List Char → Option Nat
  | [] => if pat.isEmpty then some 0 else none
  | c :: rest =>
    if pat.isPrefixOf (c :: rest) then some 0
    else (jsIndexOfAux pat rest).map (fun n => n + 1)

/-- JavaScript `s.indexOf(pat)`: first index of `pat` in `s`, or `-1`. -/
def jsIndexOf (s pat : String) : Int :=
  match jsIndexOfAux pat.data s.data with
  | some n => Int.ofNat n
  | none => -1

/-- JavaScript `s.substring(a, b)` for `a ≤ b` (the only form the code
uses): the characters in positions `[a, b)`, clamped to the string. -/
def jsSubstring (s : String) (a b : Nat) : String :=
  String.mk ((s.data.take b).drop a)

/-- JavaScript `s.substring(a)`: the characters from position `a` on. -/
def jsSubstringFrom (s : String) (a : Nat) : String :=
  String.mk (s.data.drop a)

/-- JavaScript `s.split(c)[0]` for a one-character separator: the part of
`s` before its first newline (the code only splits on a newline). -/
def jsSplitFirstLine (s : String) : String :=
  String.mk (s.data.takeWhile (fun c => !(c == '\n')))

/-! ## Data model

`Chunk` and `Passage` follow §3 of the specification (the backend data
model is not in the source tree).  Similarity scores and temperatures are
rationals, standing in for the backend's decimal numbers. -/

/-- Modelled from the spec: a Document Chunk stored by the vector index
(§3).  The embedding vector itself is not carried here: query-time
similarity scores enter the retrieval model as explicit inputs. -/
structure Chunk where
  id : Nat
  source_filename : String
  page_number : Option Nat
  text : String
  web_url : Option String
  has_watermark : Bool

instance : Inhabited Chunk := ⟨⟨0, "", none, "", none, false⟩⟩

/-- Modelled from the spec: a Retrieved Passage (§3), derived per query. -/
structure Passage where
  chunk_id : Nat
  text_preview : String
  relevance_score : ℚ
  source_filename : String
  web_url : Option String
  has_watermark : Bool

/-- A source citation as delivered to the frontend by `POST /api/chat`
(§6): `{filename, preview, relevance_score, web_url?, has_watermark}`. -/
structure Source where
  filename : String
  preview : String
  relevance_score : ℚ
  web_url : Option String
  has_watermark : Bool

/-- Modelled from the spec: serialization of a Retrieved Passage into the
`sources` entry of the `POST /api/chat` response (§6). -/
def toSource (p : Passage) : Source :=
  { filename := p.source_filename, preview := p.text_preview,
    relevance_score := p.relevance_score, web_url := p.web_url,
    has_watermark := p.has_watermark }

/-! ## Vector index client and retriever (modelled from the spec)

`rag_retriever.py` is not in the source tree.  §4.2 fixes the search
contract: hits ordered by cosine similarity, descending, stable on ties,
length at most `top_k`.  The per-chunk similarity scores appear as the
`(chunk_id, score)` input list; `search` orders and truncates them. -/

/-- Descending order on scored hits: a hit precedes another when its score
is at least as large. -/
def hitLE (a b : Nat × ℚ) : Prop := b.2 ≤ a.2

instance : DecidableRel hitLE := fun a b => inferInstanceAs (Decidable (b.2 ≤ a.2))

instance : IsTotal (Nat × ℚ) hitLE := ⟨fun a b => le_total b.2 a.2⟩

instance : IsTrans (Nat × ℚ) hitLE := ⟨fun _ _ _ h1 h2 => le_trans h2 h1⟩

/-- Modelled from the spec: `search(query_vector, top_k)` of the Vector
Index Client (§4.2) — the scored hits ordered by similarity descending
(stable insertion sort keeps insertion order on ties) and truncated to at
most `top_k`. -/
def search (scores : List (Nat × ℚ)) (top_k : Nat) : List (Nat × ℚ) :=
  (List.insertionSort hitLE scores).take top_k

/-- Modelled from the spec: clip a similarity score to `[0, 1]` (§4.3). -/
def clip01 (q : ℚ) : ℚ := min 1 (max 0 q)

/-- Modelled from the spec: bounded preview length for passage text
(§4.3, "300–500 characters"). -/
def previewLimit : Nat := 400

/-- Modelled from the spec: truncate chunk text to the preview bound. -/
def truncateText (t : String) : String :=
  String.mk (t.data.take previewLimit)

/-- Modelled from the spec: build a Retrieved Passage from a hit (§4.3) —
fetch the chunk metadata, truncate the text to a preview, attach the
clipped similarity score. -/
def mkPassage (chunks : List Chunk) (hit : Nat × ℚ) : Passage :=
  let c := (chunks.find? (fun c => c.id == hit.1)).getD default
  { chunk_id := hit.1, text_preview := truncateText c.text,
    relevance_score := clip01 hit.2, source_filename := c.source_filename,
    web_url := c.web_url, has_watermark := c.has_watermark }

/-- Modelled from the spec: `retrieve(query_text, top_k)` (§4.3) — search
the index and map each hit to a Retrieved Passage, preserving order. -/
def retrieve (chunks : List Chunk) (scores : List (Nat × ℚ)) (top_k : Nat) :
    List Passage :=
  (search scores top_k).map (mkPassage chunks)

/-! ## Context assembler (modelled from the spec, §4.4) -/

/-- Modelled from the spec: one context entry, labeled with its ordinal
citation number and the originating filename (§4.4). -/
def citationLabel (n : Nat) (p : Passage) : String :=
  "[" ++ toString n ++ "] " ++ p.source_filename ++ ": " ++ p.text_preview

/-- Modelled from the spec: maximum total character budget of the context
block (§4.4). -/
def contextBudget : Nat := 8000

/-- Modelled from the spec: keep the longest prefix of the ranked passages
whose cumulative preview length fits the budget — lowest-ranked passages
are dropped first, whole (§4.4). -/
def fitBudgetAux (budget : Nat) : List Passage → List Passage
  | [] => []
  | p :: rest =>
    if p.text_preview.data.length ≤ budget then
      p :: fitBudgetAux (budget - p.text_preview.data.length) rest
    else []

/-- Modelled from the spec: the labeled context entries, ordinals starting
at 1, over the budget-fitted passages. -/
def contextEntriesFrom (n : Nat) : List Passage → List String
  | [] => []
  | p :: rest => citationLabel n p :: contextEntriesFrom (n + 1) rest

/-- Modelled from the spec: the citation-labeled entries of the context
block for a ranked passage list. -/
def contextEntries (passages : List Passage) : List String :=
  contextEntriesFrom 1 (fitBudgetAux contextBudget passages)

/-- Modelled from the spec: `build_context(passages)` (§4.4) — the labeled
entries joined with a fixed delimiter. -/
def buildContext (passages : List Passage) : String :=
  String.intercalate "\n\n" (contextEntries passages)

/-! ## RAG orchestrator (modelled from the spec, §4.6) -/

/-- Modelled from the spec: the retrieval failure raised when the backing
vector store is unreachable (§4.2, §7). -/
structure IndexUnavailableError where
  message : String

/-- Modelled from the spec: the fixed system prompt template (§4.6). -/
def systemPrompt : String :=
  "Answer only from the provided context. Cite sources by ordinal number. Say explicitly when the context is insufficient."

/-- The RAG Response record of §3. -/
structure RAGResponse where
  answer_text : String
  sources : List Passage
  context_used : Bool
  num_sources : Nat

/-- Modelled from the spec: `answer(query_text)` of the RAG Orchestrator
(§4.6).  The retrieval outcome (passages, or an index-unavailable
failure) and the LLM client (`generate(system_prompt, user_message,
context_block)`) are explicit inputs.  A failed retrieval is absorbed:
the LLM is still called, with an empty context. -/
def answer (llm : String → String → String → String)
    (retrieval : Except IndexUnavailableError (List Passage))
    (query_text : String) : RAGResponse :=
  let passages := match retrieval with
    | .ok ps => ps
    | .error _ => []
  let context := if passages.isEmpty then "" else buildContext passages
  let answer_text := llm systemPrompt query_text context
  { answer_text := answer_text, sources := passages,
    context_used := decide (passages.length > 0),
    num_sources := passages.length }

/-! ## Configuration store (modelled from the spec, §3 and §6)

The settings endpoints' backend is not in the source tree; the store is
modelled from §3 (Model Configuration), §6 (`/api/model/config`) and the
backend README's request/response examples. -/

/-- Modelled from the spec: the process-wide model configuration state,
including the stored credentials. -/
structure ModelConfigState where
  provider : String
  model_name : String
  temperature : ℚ
  openai_api_key : Option String
  anthropic_api_key : Option String
  google_api_key : Option String

/-- Modelled from the spec: a `POST /api/model/config` body — every field
optional, at most one credential field supplied by the settings form. -/
structure ModelConfigUpdate where
  provider : Option String
  model_name : Option String
  temperature : Option ℚ
  openai_api_key : Option String
  anthropic_api_key : Option String
  google_api_key : Option String

/-- Modelled from the spec: apply an update atomically — each supplied
field replaces the stored one, absent fields keep their value. -/
def applyConfigUpdate (st : ModelConfigState) (u : ModelConfigUpdate) :
    ModelConfigState :=
  { provider := u.provider.getD st.provider,
    model_name := u.model_name.getD st.model_name,
    temperature := u.temperature.getD st.temperature,
    openai_api_key := (u.openai_api_key.orElse (fun _ => st.openai_api_key)),
    anthropic_api_key := (u.anthropic_api_key.orElse (fun _ => st.anthropic_api_key)),
    google_api_key := (u.google_api_key.orElse (fun _ => st.google_api_key)) }

/-- Modelled from the spec: the credential of the active provider. -/
def activeKey (st : ModelConfigState) : Option String :=
  if st.provider = "openai" then st.openai_api_key
  else if st.provider = "anthropic" then st.anthropic_api_key
  else if st.provider = "gemini" then st.google_api_key
  else none

/-- What `GET /api/model/config` returns: provider, model name,
temperature, and a boolean presence flag — no credential field exists in
the read shape (§6, backend README example). -/
structure ModelConfigRead where
  provider : String
  model_name : String
  temperature : ℚ
  api_key_set : Bool

/-- Modelled from the spec: the configuration read — credentials redacted
to the presence flag of the active provider's key. -/
def readModelConfig (st : ModelConfigState) : ModelConfigRead :=
  { provider := st.provider, model_name := st.model_name,
    temperature := st.temperature, api_key_set := (activeKey st).isSome }

/-! ## Chat view — Home.vue

Embedded from `frontend/src/views/Home.vue`: the `sendMessage` handler,
its error branch, and the source-card rendering of the sources section. -/

/-- A chat message as pushed onto `messages` by Home.vue.  User messages
carry only role and content; assistant messages also carry the sources
fields. -/
structure ChatMessage where
  role : String
  content : String
  sources : Option (List Source)
  context_used : Option Bool
  num_sources : Option Nat

/-- The reactive state of Home.vue touched by `sendMessage`. -/
structure ChatState where
  messages : List ChatMessage
  inputMessage : String
  isTyping : Bool

/-- The JSON body of a successful `POST /api/chat` as read by Home.vue:
`response.data.response`, `.sources`, `.context_used`, `.num_sources`
(the latter three read with `||` fallbacks, hence optional here). -/
structure ChatResponseData where
  response : String
  sources : Option (List Source)
  context_used : Option Bool
  num_sources : Option Nat

/-- The error shape Home.vue inspects in its catch branch:
`error.response?.status` and `error.response?.data?.detail`. -/
structure ApiError where
  status : Option Nat
  detail : Option String

/-- What one `sendMessage` call did: the final reactive state, the message
POSTed to `/api/chat` (if any), and whether the typing indicator was
shown during the call. -/
structure SendOutcome where
  finalState : ChatState
  postedMessage : Option String
  typingShown : Bool

/-- Home.vue: the prefix of every error message pushed by the catch
branch (the apostrophe is written as an escape). -/
def troubleBase : String := "I\x27m having trouble processing your request. "

/-- Home.vue: the actionable hint appended when the missing-credential
condition is detected. -/
def settingsHint : String := "Please configure your AI model API key in Settings."

/-- Home.vue: the fallback hint appended when the error carries no detail. -/
def backendHint : String :=
  "Please make sure the backend service is running and configured properly."

/-- Home.vue catch branch condition:
`error.response?.status === 400 && error.response?.data?.detail?.includes('API_KEY')`. -/
def apiKeyErrorCond (status : Option Nat) (detail : Option String) : Bool :=
  status == some 400 && (detail.map (fun d => hasSubstr d "API_KEY")).getD false

/-- Home.vue catch branch: the assistant error message built from a failed
`POST /api/chat`.  The second branch is the JavaScript truthiness test
`else if (error.response?.data?.detail)` — an empty-string detail is
falsy and falls through to the backend fallback hint. -/
def chatErrorMessage (status : Option Nat) (detail : Option String) : String :=
  if apiKeyErrorCond status detail then troubleBase ++ settingsHint
  else
    match detail with
    | some d => if d = "" then troubleBase ++ backendHint else troubleBase ++ d
    | none => troubleBase ++ backendHint

/-- Home.vue: the user message pushed at the start of `sendMessage`. -/
def userMessage (content : String) : ChatMessage :=
  { role := "user", content := content,
    sources := none, context_used := none, num_sources := none }

/-- Home.vue: the assistant message pushed on success — `response.data`
fields with `|| []`, `|| false`, `|| 0` fallbacks. -/
def assistantMessage (d : ChatResponseData) : ChatMessage :=
  { role := "assistant", content := d.response,
    sources := some (d.sources.getD []),
    context_used := some (d.context_used.getD false),
    num_sources := some (d.num_sources.getD 0) }

/-- Home.vue: the assistant message pushed in the catch branch. -/
def errorAssistantMessage (e : ApiError) : ChatMessage :=
  { role := "assistant", content := chatErrorMessage e.status e.detail,
    sources := some [], context_used := none, num_sources := none }

/-- Home.vue `sendMessage(content)`.  The awaited `axios.post` outcome is
the `post` argument.  The guard `if (!content.trim()) return` exits before
any state change; otherwise the user message is pushed, the input
cleared, the typing indicator shown, the request issued, and the
assistant (or error) message pushed, with the indicator cleared in the
`finally` block. -/
def sendMessage (content : String) (post : Except ApiError ChatResponseData)
    (st : ChatState) : SendOutcome :=
  if jsTrim content = "" then
    { finalState := st, postedMessage := none, typingShown := false }
  else
    let st1 : ChatState :=
      { messages := st.messages ++ [userMessage content],
        inputMessage := "", isTyping := true }
    match post with
    | .ok d =>
      { finalState := { st1 with
          messages := st1.messages ++ [assistantMessage d], isTyping := false },
        postedMessage := some content, typingShown := true }
    | .error e =>
      { finalState := { st1 with
          messages := st1.messages ++ [errorAssistantMessage e], isTyping := false },
        postedMessage := some content, typingShown := true }

/-- A rendered source card of the sources section: the number badge shows
`idx + 1` for the card at 0-based position `idx` of `message.sources`. -/
structure SourceCard where
  badge : Nat
  filename : String
  preview : String

/-- Home.vue sources `v-for="(source, idx) in message.sources"`, starting
at 0-based position `idx`. -/
def renderSourceCardsFrom (idx : Nat) : List Source → List SourceCard
  | [] => []
  | s :: rest =>
    { badge := idx + 1, filename := s.filename, preview := s.preview } ::
      renderSourceCardsFrom (idx + 1) rest

/-- Home.vue: the rendered source cards of one assistant message. -/
def renderSourceCards (sources : List Source) : List SourceCard :=
  renderSourceCardsFrom 0 sources

/-! ## Settings view — Settings.vue

Embedded from `frontend/src/views/Settings.vue`: the payload built by
`saveConfig`. -/

/-- The `formData` ref of Settings.vue. -/
structure SettingsForm where
  provider : String
  model_name : String
  temperature : ℚ
  api_key : String

/-- The body `saveConfig` POSTs to `/api/model/config`: always provider,
model name and temperature; each credential field only as added by the
provider branch. -/
structure SavePayload where
  provider : String
  model_name : String
  temperature : ℚ
  openai_api_key : Option String
  anthropic_api_key : Option String
  google_api_key : Option String

/-- Settings.vue `saveConfig`: the payload starts as
`{provider, model_name, temperature}`; if the API-key input is non-empty
(JavaScript truthiness), the credential field matching the selected
provider is added. -/
def buildSavePayload (f : SettingsForm) : SavePayload :=
  let base : SavePayload :=
    { provider := f.provider, model_name := f.model_name,
      temperature := f.temperature,
      openai_api_key := none, anthropic_api_key := none, google_api_key := none }
  if f.api_key ≠ "" then
    if f.provider = "openai" then { base with openai_api_key := some f.api_key }
    else if f.provider = "anthropic" then { base with anthropic_api_key := some f.api_key }
    else if f.provider = "gemini" then { base with google_api_key := some f.api_key }
    else base
  else base

/-- Number of credential fields present in a save payload. -/
def credentialCount (p : SavePayload) : Nat :=
  (if p.openai_api_key.isSome then 1 else 0) +
  (if p.anthropic_api_key.isSome then 1 else 0) +
  (if p.google_api_key.isSome then 1 else 0)

/-! ## Source-document view

Embedded from the unnamed source-document component (src/unnamed/part_003):
`fetchFullDocument`, `escapeHtml`, `findChunkInDocument` and
`highlightChunkInOriginal`. -/

/-- The citation source parsed from the route parameters by the
source-document view; `source.value?.filename` may be absent. -/
structure ParsedSource where
  filename : Option String
  preview : String
  relevance_score : ℚ
  web_url : Option String
  has_watermark : Bool

/-- The reactive state of the view touched by `fetchFullDocument`. -/
structure DocViewState where
  fullDocument : String
  loadingDocument : Bool

/-- A failed `GET /api/document/{filename}` as seen by the catch branch. -/
structure FetchError where
  message : String

/-- Source-document view `fetchFullDocument`.  The awaited GET outcome is
the `result` argument.  Without a filename the function returns after
clearing the loading flag; on success the document content is stored; on
failure the passage preview is stored as the full document; the `finally`
block clears the loading flag on every path. -/
def fetchFullDocument (source : Option ParsedSource)
    (result : Except FetchError String) (st : DocViewState) : DocViewState :=
  match source with
  | none => { st with loadingDocument := false }
  | some s =>
    match s.filename with
    | none => { st with loadingDocument := false }
    | some _ =>
      match result with
      | .ok content => { fullDocument := content, loadingDocument := false }
      | .error _ => { fullDocument := s.preview, loadingDocument := false }

/-- Source-document view `escapeHtml`, per character: the five characters
of the regex character class mapped to their HTML entities. -/
def escapeChar (c : Char) : String :=
  if c = '&' then "&amp;"
  else if c = '<' then "&lt;"
  else if c = '>' then "&gt;"
  else if c = '"' then "&quot;"
  else if c = Char.ofNat 39 then "&#039;"
  else String.singleton c

/-- Helper: `escapeHtml` over a character list. -/
def escapeList : List Char → String
  | [] => ""
  | c :: rest => escapeChar c ++ escapeList rest

/-- Source-document view `escapeHtml(text)`: the global regex replace
`text.replace(/[&<>"']/g, m => map[m])`, a per-character substitution. -/
def escapeHtml (text : String) : String :=
  escapeList text.data

/-- Source-document view `findChunkInDocument(fullDoc, chunk)`: exact
match of the trimmed chunk, then its first 100 characters, then its first
line when longer than 20 characters; `-1` when nothing matches. -/
def findChunkInDocument (fullDoc chunk : String) : Int :=
  let chunkTrimmed := jsTrim chunk
  let index := jsIndexOf fullDoc chunkTrimmed
  let index2 :=
    if index = -1 then jsIndexOf fullDoc (jsSubstring chunkTrimmed 0 100) else index
  if index2 = -1 then
    let firstLine := jsTrim (jsSplitFirstLine chunkTrimmed)
    if firstLine.data.length > 20 then jsIndexOf fullDoc firstLine else index2
  else index2

/-- The opening `<mark>` tag inserted around the located chunk. -/
def markOpen : String :=
  "<mark class=\"bg-primary/50 text-gray-100 px-1 rounded\" id=\"highlighted-chunk\">"

/-- The closing tag of the inserted highlight. -/
def markClose : String := "</mark>"

/-- Source-document view `highlightChunkInOriginal(fullDoc)`, with the
`source.value?.preview` chain as the `preview` argument.  An empty
document or absent/empty preview, or a chunk that is not found, yields
the escaped full document; otherwise the document is split at the located
chunk and reassembled with the `<mark>` wrapper, every part escaped. -/
def highlightChunkInOriginal (preview : Option String) (fullDoc : String) : String :=
  match preview with
  | none => escapeHtml fullDoc
  | some pv =>
    if fullDoc = "" ∨ pv = "" then escapeHtml fullDoc
    else
      let chunkIndex := findChunkInDocument fullDoc pv
      if chunkIndex = -1 then escapeHtml fullDoc
      else
        let i := chunkIndex.toNat
        let chunkLength := (jsTrim pv).data.length
        let before := jsSubstring fullDoc 0 i
        let chunk := jsSubstring fullDoc i (i + chunkLength)
        let after := jsSubstringFrom fullDoc (i + chunkLength)
        escapeHtml before ++ markOpen ++ escapeHtml chunk ++ markClose ++ escapeHtml after

/-- Passages in non-increasing relevance order: the ranked-order relation
of the `sources` sequence. -/
def passageDescending (a b : Passage) : Prop :=
  b.relevance_score ≤ a.relevance_score

/-- A concrete LLM client used to instantiate the orchestrator. -/
def constAnswerLLM : String → String → String → String :=
  fun _ _ _ => "Based on the archives, the plans are available."

/-- A concrete indexed chunk used to instantiate the retriever. -/
def chunkW : Chunk :=
  ⟨7, "Architectural Plans", some 2, "Plans for the market hall", none, false⟩

/-! ## Theorems -/

/-- C1: for every response produced by the RAG pipeline and delivered
through `POST /api/chat`, `num_sources` equals the length of `sources`,
and `context_used` is true exactly when `num_sources` is positive.  The
orchestrator is modelled from the spec (§4.6 step 5); the invariant holds
for every retrieval outcome, query and LLM client. -/
theorem c1_response_invariants (llm : String → String → String → String)
    (retrieval : Except IndexUnavailableError (List Passage)) (q : String) :
    (answer llm retrieval q).num_sources = (answer llm retrieval q).sources.length ∧
    ((answer llm retrieval q).context_used = true ↔
      0 < (answer llm retrieval q).num_sources) := by
  cases retrieval <;> simp [answer]

/-- C3: when the vector index is unreachable the orchestrator does not
fail: `answer` (modelled from spec §4.6, a total function) still calls
the LLM with an empty context block and returns a response with
`context_used = false` and no sources. -/
theorem c3_index_unreachable_degrades (llm : String → String → String → String)
    (e : IndexUnavailableError) (q : String) :
    (answer llm (Except.error e) q).context_used = false ∧
    (answer llm (Except.error e) q).sources = [] ∧
    (answer llm (Except.error e) q).answer_text = llm systemPrompt q "" := by
  simp [answer]

/-- C4 (counterexample): the claim says every failed request whose detail
contains `API_KEY` yields the actionable Settings message, but the code
also requires HTTP status 400 — a 500 response whose detail contains
`API_KEY` is surfaced as the generic processing-trouble message instead. -/
theorem c4_counterexample_status_500 :
    hasSubstr "GOOGLE_API_KEY is not configured" "API_KEY" = true ∧
    chatErrorMessage (some 500) (some "GOOGLE_API_KEY is not configured") =
      troubleBase ++ "GOOGLE_API_KEY is not configured" ∧
    chatErrorMessage (some 500) (some "GOOGLE_API_KEY is not configured") ≠
      troubleBase ++ settingsHint := by
  decide

/-- C4 (amended): a failed `POST /api/chat` with a detail string is
treated as the missing-credential condition — producing the actionable
Settings message — exactly when its HTTP status is 400 and the detail
contains the substring `API_KEY`; every other failed request with a
non-empty detail string is surfaced as the generic processing-trouble
message carrying that detail, and an empty (falsy) detail falls through
to the backend fallback hint. -/
theorem c4_api_key_condition_requires_status_400 (status : Option Nat) (d : String) :
    chatErrorMessage status (some d) =
      (if status = some 400 ∧ hasSubstr d "API_KEY" = true
       then troubleBase ++ settingsHint
       else if d = "" then troubleBase ++ backendHint
       else troubleBase ++ d) := by
  by_cases h1 : status = some 400 <;>
    by_cases h2 : hasSubstr d "API_KEY" = true <;>
    by_cases h3 : d = "" <;>
    simp [chatErrorMessage, apiKeyErrorCond, h1, h2, h3]

/-- C7: every configuration-save payload built by the settings form
carries the provider, model name and temperature of the form, at most one
credential field, and a credential field is present exactly when the
API-key input is non-empty and the field matches the selected provider
(`google_api_key` for the `gemini` provider). -/
theorem c7_save_payload_shape (f : SettingsForm) :
    (buildSavePayload f).provider = f.provider ∧
    (buildSavePayload f).model_name = f.model_name ∧
    (buildSavePayload f).temperature = f.temperature ∧
    credentialCount (buildSavePayload f) ≤ 1 ∧
    (buildSavePayload f).openai_api_key =
      (if f.provider = "openai" ∧ f.api_key ≠ "" then some f.api_key else none) ∧
    (buildSavePayload f).anthropic_api_key =
      (if f.provider = "anthropic" ∧ f.api_key ≠ "" then some f.api_key else none) ∧
    (buildSavePayload f).google_api_key =
      (if f.provider = "gemini" ∧ f.api_key ≠ "" then some f.api_key else none) := by
  by_cases hk : f.api_key = "" <;>
    by_cases h1 : f.provider = "openai" <;>
    by_cases h2 : f.provider = "anthropic" <;>
    by_cases h3 : f.provider = "gemini" <;>
    simp_all [buildSavePayload, credentialCount]

/-- C8: when the full-document fetch for a citation fails, the
source-document view stores the passage preview as the full document and
clears the loading flag — the request is neither left pending nor
silently dropped. -/
theorem c8_document_fetch_fallback (s : ParsedSource) (fn : String)
    (e : FetchError) (st : DocViewState) :
    fetchFullDocument (some { s with filename := some fn }) (Except.error e) st =
      { fullDocument := s.preview, loadingDocument := false } := by
  simp [fetchFullDocument]

/-- C9: a chat input that is empty or all whitespace makes `sendMessage`
return at the guard: no `POST /api/chat` request is issued, the reactive
state (messages, input, typing flag) is untouched, and the typing
indicator is never shown — whatever the network would have answered. -/
theorem c9_blank_input_no_request (content : String)
    (post : Except ApiError ChatResponseData) (st : ChatState)
    (hw : content.data.all jsWhitespace = true) :
    sendMessage content post st =
      { finalState := st, postedMessage := none, typingShown := false } := by
  have hnil : content.data.dropWhile jsWhitespace = [] := by
    rw [List.dropWhile_eq_nil_iff]
    intro x hx
    exact List.all_eq_true.mp hw x hx
  have ht : jsTrim content = "" := by
    unfold jsTrim
    rw [hnil]
    rfl
  simp [sendMessage, ht]

/-- C9 witness: a concrete all-whitespace input leaves a concrete state
untouched and issues no request. -/
theorem c9_blank_input_no_request_witness :
    ("  \n ".data.all jsWhitespace = true) ∧
    sendMessage "  \n " (Except.error { status := none, detail := none })
        { messages := [], inputMessage := "x", isTyping := false } =
      { finalState := { messages := [], inputMessage := "x", isTyping := false },
        postedMessage := none, typingShown := false } :=
  ⟨by decide, c9_blank_input_no_request _ _ _ (by decide)⟩

/-- C5: updating the model configuration with provider `X`, model name
`Y` and temperature `T`, then reading it, returns exactly `X`, `Y` and
`T`; the read shape (`ModelConfigRead`) carries no credential, only the
boolean presence flag of the active provider's key.  Store modelled from
spec §3/§6. -/
theorem c5_config_roundtrip (st : ModelConfigState) (u : ModelConfigUpdate)
    (X Y : String) (T : ℚ)
    (hp : u.provider = some X) (hm : u.model_name = some Y)
    (ht : u.temperature = some T) :
    readModelConfig (applyConfigUpdate st u) =
      ModelConfigRead.mk X Y T ((activeKey (applyConfigUpdate st u)).isSome) := by
  simp [readModelConfig, applyConfigUpdate, hp, hm, ht]

/-- C5 witness: a concrete update (switching provider, model, temperature
and supplying a credential) reads back exactly the written values plus a
boolean flag. -/
theorem c5_config_roundtrip_witness :
    readModelConfig (applyConfigUpdate
        (ModelConfigState.mk "gemini" "gemini-2.5-flash" (7/10) none none none)
        (ModelConfigUpdate.mk (some "openai") (some "gpt-4o-mini") (some (4/10))
          (some "sk-test") none none)) =
      ModelConfigRead.mk "openai" "gpt-4o-mini" (4/10)
        ((activeKey (applyConfigUpdate
            (ModelConfigState.mk "gemini" "gemini-2.5-flash" (7/10) none none none)
            (ModelConfigUpdate.mk (some "openai") (some "gpt-4o-mini") (some (4/10))
              (some "sk-test") none none))).isSome) :=
  c5_config_roundtrip _ _ _ _ _ rfl rfl rfl

/-- Helper: the badge of the card at position `i` of the tail rendered
from 0-based position `base` is `base + i + 1`. -/
theorem renderSourceCardsFrom_badge (l : List Source) (base i : Nat)
    (hi : i < l.length) :
    ((renderSourceCardsFrom base l)[i]?).map SourceCard.badge = some (base + i + 1) := by
  induction l generalizing base i with
  | nil => simp at hi
  | cons s rest ih =>
    cases i with
    | zero => simp [renderSourceCardsFrom]
    | succ k =>
      have hk : k < rest.length := by simpa using hi
      have hrec := ih (base + 1) k hk
      simpa [renderSourceCardsFrom, Nat.add_assoc, Nat.add_comm, Nat.add_left_comm]
        using hrec

/-- Helper: the context entry at position `j`, when ordinals start at
`n`, is the label of ordinal `n + j`. -/
theorem contextEntriesFrom_getElem (l : List Passage) (n j : Nat) :
    (contextEntriesFrom n l)[j]? = (l[j]?).map (citationLabel (n + j)) := by
  induction l generalizing n j with
  | nil => simp [contextEntriesFrom]
  | cons p rest ih =>
    cases j with
    | zero => simp [contextEntriesFrom]
    | succ k =>
      have hrec := ih (n + 1) k
      have harith : n + 1 + k = n + (k + 1) := by omega
      simpa [contextEntriesFrom, harith] using hrec

/-- Helper: the budget fit keeps a prefix — positions it retains agree
with the original passage list. -/
theorem fitBudgetAux_getElem (b : Nat) (l : List Passage) (j : Nat)
    (hj : j < (fitBudgetAux b l).length) :
    (fitBudgetAux b l)[j]? = l[j]? := by
  induction l generalizing b j with
  | nil => simp [fitBudgetAux] at hj
  | cons p rest ih =>
    by_cases h : p.text_preview.data.length ≤ b
    · rw [fitBudgetAux, if_pos h] at hj ⊢
      cases j with
      | zero => simp
      | succ k =>
        have hk : k < (fitBudgetAux (b - p.text_preview.data.length) rest).length := by
          simpa using hj
        simpa using ih (b - p.text_preview.data.length) k hk
    · rw [fitBudgetAux, if_neg h] at hj
      simp at hj

/-- Helper: labeling entries does not change how many there are. -/
theorem contextEntriesFrom_length (n : Nat) (l : List Passage) :
    (contextEntriesFrom n l).length = l.length := by
  induction l generalizing n with
  | nil => rfl
  | cons p rest ih => simp [contextEntriesFrom, ih]

/-- C6: citation ordinals are the 1-based positions.  The `i`-th source
card rendered by the chat view (embedded from Home.vue) shows badge
`i + 1`, and the `j`-th entry of the context block (assembler modelled
from spec §4.4) is the ordinal label `j + 1` of the passage at position
`j` of `sources`. -/
theorem c6_citation_ordinals (srcs : List Source) (ps : List Passage) (i j : Nat)
    (hi : i < srcs.length) (hj : j < (contextEntries ps).length) :
    ((renderSourceCards srcs)[i]?).map SourceCard.badge = some (i + 1) ∧
    (contextEntries ps)[j]? = (ps[j]?).map (citationLabel (j + 1)) := by
  constructor
  · simpa using renderSourceCardsFrom_badge srcs 0 i hi
  · have hj2 : j < (fitBudgetAux contextBudget ps).length := by
      have hlen := contextEntriesFrom_length 1 (fitBudgetAux contextBudget ps)
      unfold contextEntries at hj
      omega
    have h1 : (contextEntries ps)[j]? =
        ((fitBudgetAux contextBudget ps)[j]?).map (citationLabel (1 + j)) := by
      unfold contextEntries
      exact contextEntriesFrom_getElem _ 1 j
    rw [h1, fitBudgetAux_getElem _ _ _ hj2, Nat.add_comm 1 j]

/-- C6 witness: for a one-passage response the first source card shows
badge 1 and the first context entry carries ordinal label 1. -/
theorem c6_citation_ordinals_witness :
    (0 < ([Source.mk "plans.md" "Market hall plans" 1 none false] : List Source).length) ∧
    (0 < (contextEntries [Passage.mk 7 "Market hall plans" 1 "plans.md" none false]).length) ∧
    ((renderSourceCards [Source.mk "plans.md" "Market hall plans" 1 none false])[0]?).map
        SourceCard.badge = some 1 ∧
    (contextEntries [Passage.mk 7 "Market hall plans" 1 "plans.md" none false])[0]? =
      (([Passage.mk 7 "Market hall plans" 1 "plans.md" none false] :
          List Passage)[0]?).map (citationLabel 1) :=
  ⟨by decide, by decide,
    c6_citation_ordinals [Source.mk "plans.md" "Market hall plans" 1 none false]
      [Passage.mk 7 "Market hall plans" 1 "plans.md" none false] 0 0
      (by decide) (by decide)⟩

/-- Helper: clipping to `[0, 1]` preserves order. -/
theorem clip01_mono {a b : ℚ} (h : a ≤ b) : clip01 a ≤ clip01 b :=
  min_le_min le_rfl (max_le_max le_rfl h)

/-- C2: the `sources` sequence of a response built from a successful
retrieval is sorted by `relevance_score` in non-increasing order and has
length at most `top_k` — the index client (modelled from spec §4.2)
returns hits by similarity descending, and the retriever's clipping of
scores preserves that order. -/
theorem c2_sources_sorted (llm : String → String → String → String)
    (chunks : List Chunk) (scores : List (Nat × ℚ)) (top_k : Nat) (q : String)
    (hne : 0 < ((answer llm (Except.ok (retrieve chunks scores top_k)) q).sources).length) :
    ((answer llm (Except.ok (retrieve chunks scores top_k)) q).sources).length ≤ top_k ∧
    List.Sorted passageDescending
      ((answer llm (Except.ok (retrieve chunks scores top_k)) q).sources) := by
  have hsrc : (answer llm (Except.ok (retrieve chunks scores top_k)) q).sources
      = retrieve chunks scores top_k := rfl
  rw [hsrc]
  constructor
  · have hlen : (retrieve chunks scores top_k).length =
        min top_k (List.insertionSort hitLE scores).length := by
      simp [retrieve, search]
    rw [hlen]
    exact min_le_left _ _
  · have h1 : List.Sorted hitLE (List.insertionSort hitLE scores) :=
      List.sorted_insertionSort hitLE scores
    have h2 : List.Sorted hitLE ((List.insertionSort hitLE scores).take top_k) :=
      List.Pairwise.sublist (List.take_sublist _ _) h1
    exact List.Pairwise.map (mkPassage chunks)
      (fun a b hab => clip01_mono hab) h2

/-- C2 witness: a one-hit retrieval yields a nonempty, sorted source list
of length at most 3. -/
theorem c2_sources_sorted_witness :
    0 < ((answer constAnswerLLM (Except.ok (retrieve [chunkW] [(7, 1)] 3)) "q").sources).length ∧
    (((answer constAnswerLLM (Except.ok (retrieve [chunkW] [(7, 1)] 3)) "q").sources).length ≤ 3 ∧
     List.Sorted passageDescending
       ((answer constAnswerLLM (Except.ok (retrieve [chunkW] [(7, 1)] 3)) "q").sources)) :=
  ⟨by decide, c2_sources_sorted constAnswerLLM [chunkW] [(7, 1)] 3 "q" (by decide)⟩

/-- Helper: the entity substitution of a single character contains no raw
angle bracket. -/
theorem escapeChar_no_markup (c : Char) :
    '<' ∉ (escapeChar c).data ∧ '>' ∉ (escapeChar c).data := by
  by_cases h1 : c = '&'
  · rw [escapeChar, if_pos h1]; decide
  by_cases h2 : c = '<'
  · rw [escapeChar, if_neg h1, if_pos h2]; decide
  by_cases h3 : c = '>'
  · rw [escapeChar, if_neg h1, if_neg h2, if_pos h3]; decide
  by_cases h4 : c = '"'
  · rw [escapeChar, if_neg h1, if_neg h2, if_neg h3, if_pos h4]; decide
  by_cases h5 : c = Char.ofNat 39
  · rw [escapeChar, if_neg h1, if_neg h2, if_neg h3, if_neg h4, if_pos h5]; decide
  rw [escapeChar, if_neg h1, if_neg h2, if_neg h3, if_neg h4, if_neg h5]
  constructor <;> intro hmem <;> simp [String.singleton] at hmem
  · exact h2 hmem.symm
  · exact h3 hmem.symm

/-- Helper: concatenation of strings concatenates their characters. -/
theorem string_data_append (a b : String) : (a ++ b).data = a.data ++ b.data := rfl

/-- Helper: the escaped form of any character list contains no raw angle
bracket. -/
theorem escapeList_no_markup (l : List Char) :
    '<' ∉ (escapeList l).data ∧ '>' ∉ (escapeList l).data := by
  induction l with
  | nil => decide
  | cons c rest ih =>
    rw [escapeList, string_data_append]
    constructor <;> intro hmem <;> rcases List.mem_append.mp hmem with h | h
    · exact (escapeChar_no_markup c).1 h
    · exact ih.1 h
    · exact (escapeChar_no_markup c).2 h
    · exact ih.2 h

/-- Helper: splitting a list at `[i, i + n)` and reassembling the three
parts recovers the list. -/
theorem list_take_drop_decomp (d : List Char) (i n : Nat) :
    d.take i ++ ((d.take (i + n)).drop i ++ d.drop (i + n)) = d := by
  have h1 : d.take i = (d.take (i + n)).take i := by
    rw [List.take_take, min_eq_left (Nat.le_add_right i n)]
  rw [h1, ← List.append_assoc, List.take_append_drop, List.take_append_drop]

/-- C10: `escapeHtml` output never contains a raw `<` or `>`, so the
original-text pane holds no markup originating from document text: when
the chunk is not located (or the document or preview is missing) the pane
is exactly the escaped full document, and otherwise the document splits
as `before ++ mid ++ after` with the pane equal to the three escaped
parts around the single inserted `<mark>` wrapper. -/
theorem c10_escape_and_highlight (s fullDoc pv : String) :
    ('<' ∉ (escapeHtml s).data ∧ '>' ∉ (escapeHtml s).data) ∧
    (if fullDoc = "" ∨ pv = "" ∨ findChunkInDocument fullDoc pv = -1
     then highlightChunkInOriginal (some pv) fullDoc = escapeHtml fullDoc
     else ∃ before mid after : String,
       fullDoc.data = before.data ++ (mid.data ++ after.data) ∧
       highlightChunkInOriginal (some pv) fullDoc =
         escapeHtml before ++ markOpen ++ escapeHtml mid ++ markClose ++
           escapeHtml after) := by
  refine ⟨escapeList_no_markup s.data, ?_⟩
  by_cases hguard : fullDoc = "" ∨ pv = "" ∨ findChunkInDocument fullDoc pv = -1
  · rw [if_pos hguard]
    by_cases h12 : fullDoc = "" ∨ pv = ""
    · simp [highlightChunkInOriginal, h12]
    · have h3 : findChunkInDocument fullDoc pv = -1 := by tauto
      simp [highlightChunkInOriginal, h12, h3]
  · rw [if_neg hguard]
    push_neg at hguard
    obtain ⟨h1, h2, h3⟩ := hguard
    refine ⟨jsSubstring fullDoc 0 ((findChunkInDocument fullDoc pv).toNat),
      jsSubstring fullDoc ((findChunkInDocument fullDoc pv).toNat)
        ((findChunkInDocument fullDoc pv).toNat + (jsTrim pv).data.length),
      jsSubstringFrom fullDoc
        ((findChunkInDocument fullDoc pv).toNat + (jsTrim pv).data.length), ?_, ?_⟩
    · symm
      show (fullDoc.data.take _).drop 0 ++ _ = fullDoc.data
      rw [List.drop_zero]
      exact list_take_drop_decomp fullDoc.data _ _
    · simp [highlightChunkInOriginal, h1, h2, h3]

end BarcelonaArchives
